import Mathlib

/-
Verification of the Arrakis MCP server adapter (src/arrakis_mcp_server.py).

The adapter exposes eleven operations, each a one-to-one forwarding call into
an external sandbox client (py_arrakis), wrapped in a try/except handler that
converts any raised exception into a descriptive string.

Shallow embedding:
  * The external sandbox client is an abstract environment `Api`: every
    external call is a field returning `Except String α`, where
    `Except.error e` models the call raising an exception whose `str(e)` is
    `e`, and `Except.ok v` models it returning `v`.
  * A sandbox handle (`Sandbox(sandbox_manager._api, vm_name)` in the source)
    is addressed by its VM name: constructing the handle performs no external
    call, so per-VM calls in the model take the VM name directly.
  * Python dicts returned by `run_cmd` / `download_files` are association
    lists `List (String × String)`; `d.get(k, v)` is `dictGetD d k v` and
    `k in d` / `d[k]` is `dictGet? d k`.
  * Each operation is split exactly as the source is: a `_body` definition for
    the code inside the `try:` block (which may end in `Except.error`), and
    the operation itself, which applies the `except` clause (`handle`) to the
    body and returns the result string.  Operations additionally return the
    (unmodified) manager reference they read — the module-level
    `sandbox_manager` global — and the trace of external calls made, so that
    claims about state preservation and about what is forwarded to the
    service are statable.
-/

namespace Arrakis

/-- Modelled from the spec: a VM info record produced by the external
service's `info()` call.  The adapter passes these records through
unexamined (it never reads a key of an info record), so a record is modelled
by its serialized JSON text. -/
structure VMInfo where
  raw : String
  deriving DecidableEq, Repr

/-- Modelled from the spec: the standard-library serializer
`json.dumps(info, indent=2)` applied to one opaque VM info record, which is
its serialized JSON text. -/
def dumpsInfo (i : VMInfo) : String :=
  i.raw

/-- Modelled from the spec: `json.dumps(vm_info, indent=2)` applied to a
Python list of VM info records: the serializations of exactly the elements,
in order, inside JSON array brackets. -/
def dumpsInfoList (l : List VMInfo) : String :=
  "[" ++ String.intercalate ", " (l.map dumpsInfo) ++ "]"

/-- `d.get(k, v)` on a Python dict, first looking the key up. -/
def dictGet? (d : List (String × String)) (k : String) : Option String :=
  Option.map Prod.snd (d.find? (fun p => p.1 == k))

/-- `d.get(k, v)`: the value at key `k`, or the default `v` when absent. -/
def dictGetD (d : List (String × String)) (k v : String) : String :=
  Option.getD (dictGet? d k) v

/-- The external sandbox client (manager plus per-VM calls), as the adapter
uses it.  Every field models one call into the external service:
`Except.error e` means the call raised an exception with message `e`. -/
structure Api where
  listAll : Except String (List String)
  info : String → Except String VMInfo
  startSandbox : String → Except String String
  restore : String → String → Except String String
  snapshot : String → String → Except String String
  runCmd : String → String → Except String (List (String × String))
  uploadFiles : String → List (String × String) → Except String Unit
  downloadFiles : String → List String → Except String (List (List (String × String)))
  destroy : String → Except String Unit
  destroyAll : Except String Unit
  updateState : String → String → Except String Unit

/-- One external call made by the adapter, with the arguments it forwarded. -/
inductive ExtCall where
  | listAll
  | info (vm : String)
  | startSandbox (name : String)
  | restore (vm snapshotId : String)
  | snapshot (vm snapshotId : String)
  | runCmd (vm cmd : String)
  | uploadFiles (vm : String) (files : List (String × String))
  | downloadFiles (vm : String) (paths : List String)
  | destroy (vm : String)
  | destroyAll
  | updateState (vm status : String)
  deriving DecidableEq, Repr

/-- The `except Exception as e: return f"<label>{str(e)}"` clause shared by
every operation: an `ok` body result is returned as is, an exception is
converted to the operation's labelled error string. -/
def handle (label : String) (p : Except String String × List ExtCall) :
    String × List ExtCall :=
  match p with
  | (Except.ok s, t) => (s, t)
  | (Except.error e, t) => (label ++ e, t)

/-- `[vm.info() for vm in vms]`: queries `info` on each listed VM in order,
stopping at (and propagating) the first exception. -/
def infoAll (mgr : Api) : List String → Except String (List VMInfo) × List ExtCall
  | [] => (Except.ok [], [])
  | vm :: rest =>
    match mgr.info vm with
    | Except.error e => (Except.error e, [ExtCall.info vm])
    | Except.ok i =>
      match infoAll mgr rest with
      | (Except.error e, t) => (Except.error e, ExtCall.info vm :: t)
      | (Except.ok l, t) => (Except.ok (i :: l), ExtCall.info vm :: t)

/-- The `try:` block of `get_vms`. -/
def get_vms_body (mgr : Api) : Except String String × List ExtCall :=
  match mgr.listAll with
  | Except.error e => (Except.error e, [ExtCall.listAll])
  | Except.ok vms =>
    match infoAll mgr vms with
    | (Except.error e, t) => (Except.error e, ExtCall.listAll :: t)
    | (Except.ok vm_info, t) =>
      (Except.ok (dumpsInfoList vm_info), ExtCall.listAll :: t)

/-- `get_vms` (the `arrakis://vms` resource). -/
def get_vms (mgr : Api) : String × Api × List ExtCall :=
  let r := handle "Error listing VMs: " (get_vms_body mgr)
  (r.1, mgr, r.2)

/-- The `try:` block of `get_vm_info`. -/
def get_vm_info_body (mgr : Api) (vm_name : String) :
    Except String String × List ExtCall :=
  match mgr.info vm_name with
  | Except.error e => (Except.error e, [ExtCall.info vm_name])
  | Except.ok i => (Except.ok (dumpsInfo i), [ExtCall.info vm_name])

/-- `get_vm_info` (the `arrakis://vm/{vm_name}` resource). -/
def get_vm_info (mgr : Api) (vm_name : String) : String × Api × List ExtCall :=
  let r := handle "Error retrieving VM information: " (get_vm_info_body mgr vm_name)
  (r.1, mgr, r.2)

/-- The `try:` block of `start_sandbox`. -/
def start_sandbox_body (mgr : Api) (name : String) :
    Except String String × List ExtCall :=
  match mgr.startSandbox name with
  | Except.error e => (Except.error e, [ExtCall.startSandbox name])
  | Except.ok sb =>
    match mgr.info sb with
    | Except.error e => (Except.error e, [ExtCall.startSandbox name, ExtCall.info sb])
    | Except.ok i =>
      (Except.ok (dumpsInfo i), [ExtCall.startSandbox name, ExtCall.info sb])

/-- `start_sandbox` tool. -/
def start_sandbox (mgr : Api) (name : String) : String × Api × List ExtCall :=
  let r := handle "Error starting sandbox: " (start_sandbox_body mgr name)
  (r.1, mgr, r.2)

/-- The `try:` block of `restore_snapshot`. -/
def restore_snapshot_body (mgr : Api) (vm_name snapshot_id : String) :
    Except String String × List ExtCall :=
  match mgr.restore vm_name snapshot_id with
  | Except.error e => (Except.error e, [ExtCall.restore vm_name snapshot_id])
  | Except.ok sb =>
    match mgr.info sb with
    | Except.error e =>
      (Except.error e, [ExtCall.restore vm_name snapshot_id, ExtCall.info sb])
    | Except.ok i =>
      (Except.ok (dumpsInfo i), [ExtCall.restore vm_name snapshot_id, ExtCall.info sb])

/-- `restore_snapshot` tool. -/
def restore_snapshot (mgr : Api) (vm_name snapshot_id : String) :
    String × Api × List ExtCall :=
  let r := handle "Error restoring snapshot: " (restore_snapshot_body mgr vm_name snapshot_id)
  (r.1, mgr, r.2)

/-- The `try:` block of `snapshot`. -/
def snapshot_body (mgr : Api) (vm_name snapshot_id : String) :
    Except String String × List ExtCall :=
  match mgr.snapshot vm_name snapshot_id with
  | Except.error e => (Except.error e, [ExtCall.snapshot vm_name snapshot_id])
  | Except.ok result =>
    (Except.ok ("Created snapshot with ID: " ++ result),
      [ExtCall.snapshot vm_name snapshot_id])

/-- `snapshot` tool; the Python default for `snapshot_id` is `""`. -/
def snapshot (mgr : Api) (vm_name snapshot_id : String) :
    String × Api × List ExtCall :=
  let r := handle "Error creating snapshot: " (snapshot_body mgr vm_name snapshot_id)
  (r.1, mgr, r.2)

/-- The `try:` block of `run_command`. -/
def run_command_body (mgr : Api) (vm_name cmd : String) :
    Except String String × List ExtCall :=
  match mgr.runCmd vm_name cmd with
  | Except.error e => (Except.error e, [ExtCall.runCmd vm_name cmd])
  | Except.ok result =>
    let output := dictGetD result "output" ""
    let error := dictGetD result "error" ""
    if error ≠ "" then
      (Except.ok ("Command output:\n" ++ output ++ "\n\nError:\n" ++ error),
        [ExtCall.runCmd vm_name cmd])
    else
      (Except.ok ("Command output:\n" ++ output), [ExtCall.runCmd vm_name cmd])

/-- `run_command` tool. -/
def run_command (mgr : Api) (vm_name cmd : String) : String × Api × List ExtCall :=
  let r := handle "Error running command: " (run_command_body mgr vm_name cmd)
  (r.1, mgr, r.2)

/-- The `try:` block of `upload_file`; the single Python dict
`{"path": path, "content": content}` is the pair `(path, content)`. -/
def upload_file_body (mgr : Api) (vm_name path content : String) :
    Except String String × List ExtCall :=
  match mgr.uploadFiles vm_name [(path, content)] with
  | Except.error e => (Except.error e, [ExtCall.uploadFiles vm_name [(path, content)]])
  | Except.ok _ =>
    (Except.ok ("Successfully uploaded file to " ++ path),
      [ExtCall.uploadFiles vm_name [(path, content)]])

/-- `upload_file` tool. -/
def upload_file (mgr : Api) (vm_name path content : String) :
    String × Api × List ExtCall :=
  let r := handle "Error uploading file: " (upload_file_body mgr vm_name path content)
  (r.1, mgr, r.2)

/-- The `try:` block of `download_file`. -/
def download_file_body (mgr : Api) (vm_name path : String) :
    Except String String × List ExtCall :=
  match mgr.downloadFiles vm_name [path] with
  | Except.error e => (Except.error e, [ExtCall.downloadFiles vm_name [path]])
  | Except.ok result =>
    let t := [ExtCall.downloadFiles vm_name [path]]
    match result with
    | [] => (Except.ok ("No file found at path: " ++ path), t)
    | file_data :: _ =>
      match dictGet? file_data "error" with
      | some err =>
        if err ≠ "" then (Except.ok ("Error downloading file: " ++ err), t)
        else (Except.ok ("File content:\n" ++ dictGetD file_data "content" ""), t)
      | none => (Except.ok ("File content:\n" ++ dictGetD file_data "content" ""), t)

/-- `download_file` tool. -/
def download_file (mgr : Api) (vm_name path : String) :
    String × Api × List ExtCall :=
  let r := handle "Error downloading file: " (download_file_body mgr vm_name path)
  (r.1, mgr, r.2)

/-- The `try:` block of `destroy_vm`. -/
def destroy_vm_body (mgr : Api) (vm_name : String) :
    Except String String × List ExtCall :=
  match mgr.destroy vm_name with
  | Except.error e => (Except.error e, [ExtCall.destroy vm_name])
  | Except.ok _ =>
    (Except.ok ("Successfully destroyed VM " ++ vm_name), [ExtCall.destroy vm_name])

/-- `destroy_vm` tool. -/
def destroy_vm (mgr : Api) (vm_name : String) : String × Api × List ExtCall :=
  let r := handle "Error destroying VM: " (destroy_vm_body mgr vm_name)
  (r.1, mgr, r.2)

/-- The `try:` block of `destroy_all_vms`. -/
def destroy_all_vms_body (mgr : Api) : Except String String × List ExtCall :=
  match mgr.destroyAll with
  | Except.error e => (Except.error e, [ExtCall.destroyAll])
  | Except.ok _ => (Except.ok "Successfully destroyed all VMs", [ExtCall.destroyAll])

/-- `destroy_all_vms` tool. -/
def destroy_all_vms (mgr : Api) : String × Api × List ExtCall :=
  let r := handle "Error destroying VMs: " (destroy_all_vms_body mgr)
  (r.1, mgr, r.2)

/-- The `try:` block of `update_vm_state`. -/
def update_vm_state_body (mgr : Api) (vm_name status : String) :
    Except String String × List ExtCall :=
  match mgr.updateState vm_name status with
  | Except.error e => (Except.error e, [ExtCall.updateState vm_name status])
  | Except.ok _ =>
    (Except.ok ("Successfully updated VM " ++ vm_name ++ " state to " ++ status),
      [ExtCall.updateState vm_name status])

/-- `update_vm_state` tool. -/
def update_vm_state (mgr : Api) (vm_name status : String) :
    String × Api × List ExtCall :=
  let r := handle "Error updating VM state: " (update_vm_state_body mgr vm_name status)
  (r.1, mgr, r.2)

/-- A concrete environment in which the external service is unreachable:
every call raises an exception with message `unreachable`. -/
def apiDown : Api where
  listAll := Except.error "unreachable"
  info := fun _ => Except.error "unreachable"
  startSandbox := fun _ => Except.error "unreachable"
  restore := fun _ _ => Except.error "unreachable"
  snapshot := fun _ _ => Except.error "unreachable"
  runCmd := fun _ _ => Except.error "unreachable"
  uploadFiles := fun _ _ => Except.error "unreachable"
  downloadFiles := fun _ _ => Except.error "unreachable"
  destroy := fun _ => Except.error "unreachable"
  destroyAll := Except.error "unreachable"
  updateState := fun _ _ => Except.error "unreachable"

/-- A concrete healthy environment: every call succeeds; a requested
snapshot id is accepted verbatim and an empty one is auto-generated as
`gen-1`; a downloaded path `p` holds the stored content `stored-p`. -/
def apiUp : Api where
  listAll := Except.ok ["vm-a", "vm-b"]
  info := fun vm => Except.ok (VMInfo.mk ("info-" ++ vm))
  startSandbox := fun name => Except.ok name
  restore := fun vm _ => Except.ok vm
  snapshot := fun _ sid => Except.ok (if sid = "" then "gen-1" else sid)
  runCmd := fun _ _ => Except.ok [("output", "hello"), ("error", "")]
  uploadFiles := fun _ _ => Except.ok ()
  downloadFiles := fun _ paths =>
    Except.ok (paths.map (fun p => [("path", p), ("content", "stored-" ++ p)]))
  destroy := fun _ => Except.ok ()
  destroyAll := Except.ok ()
  updateState := fun _ _ => Except.ok ()

/-- `apiUp`, except that the service rejects update-state values other than
`stopped` and `paused`. -/
def apiPicky : Api :=
  { apiUp with
    updateState := fun _ status =>
      if status = "stopped" then Except.ok ()
      else if status = "paused" then Except.ok ()
      else Except.error ("invalid status " ++ status) }

/-- `apiUp`, except that downloading any path returns no file records. -/
def apiEmptyDl : Api :=
  { apiUp with downloadFiles := fun _ _ => Except.ok [] }

/-- `apiUp`, except that downloading returns a first record carrying an
error, followed by a second record that must never be examined. -/
def apiErrDl : Api :=
  { apiUp with
    downloadFiles := fun _ _ =>
      Except.ok [[("error", "permission denied")], [("content", "ignored")]] }

/-- `apiErrDl` with a different tail after the first download record. -/
def apiErrDl2 : Api :=
  { apiUp with
    downloadFiles := fun _ _ => Except.ok [[("error", "permission denied")]] }

/-- `apiUp`, except that the first download record has no `content` key. -/
def apiNoContent : Api :=
  { apiUp with downloadFiles := fun _ _ => Except.ok [[("path", "/f")]] }

/-- When the `try:` block ends in an exception `e`, the operation's result
string is the operation's label followed by `e`. -/
theorem handle_fst_error (l e : String) (p : Except String String × List ExtCall)
    (h : p.1 = Except.error e) : (handle l p).1 = l ++ e := by
  obtain ⟨p1, t⟩ := p
  cases p1 with
  | ok s => simp at h
  | error e2 =>
    simp at h
    subst h
    rfl

/-- When the `try:` block returns `s` normally, the operation's result string
is `s`. -/
theorem handle_fst_ok (l s : String) (p : Except String String × List ExtCall)
    (h : p.1 = Except.ok s) : (handle l p).1 = s := by
  obtain ⟨p1, t⟩ := p
  cases p1 with
  | ok s2 =>
    simp at h
    subst h
    rfl
  | error e => simp at h

/-- The `except` clause does not change which external calls were made. -/
theorem handle_snd (l : String) (p : Except String String × List ExtCall) :
    (handle l p).2 = p.2 := by
  obtain ⟨p1, t⟩ := p
  cases p1 <;> rfl

/-- Claim C1: for every public operation (get_vms, get_vm_info,
start_sandbox, restore_snapshot, snapshot, run_command, upload_file,
download_file, destroy_vm, destroy_all_vms, update_vm_state) and for every
exception raised anywhere inside the operation's `try:` block by the
underlying sandbox-client calls, the operation catches the exception and
returns a descriptive string as a normal result.  No operation ever
propagates an exception to the protocol layer: each operation's result type
is a plain string (together with the unchanged manager and the call trace),
never an `Except`. -/
theorem all_ops_catch_exceptions (mgr : Api)
    (name vm snapshot_id cmd path content status e : String) :
    ((get_vms_body mgr).1 = Except.error e →
      (get_vms mgr).1 = "Error listing VMs: " ++ e) ∧
    ((get_vm_info_body mgr vm).1 = Except.error e →
      (get_vm_info mgr vm).1 = "Error retrieving VM information: " ++ e) ∧
    ((start_sandbox_body mgr name).1 = Except.error e →
      (start_sandbox mgr name).1 = "Error starting sandbox: " ++ e) ∧
    ((restore_snapshot_body mgr vm snapshot_id).1 = Except.error e →
      (restore_snapshot mgr vm snapshot_id).1 = "Error restoring snapshot: " ++ e) ∧
    ((snapshot_body mgr vm snapshot_id).1 = Except.error e →
      (snapshot mgr vm snapshot_id).1 = "Error creating snapshot: " ++ e) ∧
    ((run_command_body mgr vm cmd).1 = Except.error e →
      (run_command mgr vm cmd).1 = "Error running command: " ++ e) ∧
    ((upload_file_body mgr vm path content).1 = Except.error e →
      (upload_file mgr vm path content).1 = "Error uploading file: " ++ e) ∧
    ((download_file_body mgr vm path).1 = Except.error e →
      (download_file mgr vm path).1 = "Error downloading file: " ++ e) ∧
    ((destroy_vm_body mgr vm).1 = Except.error e →
      (destroy_vm mgr vm).1 = "Error destroying VM: " ++ e) ∧
    ((destroy_all_vms_body mgr).1 = Except.error e →
      (destroy_all_vms mgr).1 = "Error destroying VMs: " ++ e) ∧
    ((update_vm_state_body mgr vm status).1 = Except.error e →
      (update_vm_state mgr vm status).1 = "Error updating VM state: " ++ e) := by
  exact ⟨fun h => handle_fst_error _ _ _ h, fun h => handle_fst_error _ _ _ h,
    fun h => handle_fst_error _ _ _ h, fun h => handle_fst_error _ _ _ h,
    fun h => handle_fst_error _ _ _ h, fun h => handle_fst_error _ _ _ h,
    fun h => handle_fst_error _ _ _ h, fun h => handle_fst_error _ _ _ h,
    fun h => handle_fst_error _ _ _ h, fun h => handle_fst_error _ _ _ h,
    fun h => handle_fst_error _ _ _ h⟩

/-- Witness for C1: with the service unreachable, every operation returns
its labelled error string as a normal result. -/
theorem all_ops_catch_exceptions_witness :
    (get_vms apiDown).1 = "Error listing VMs: unreachable" ∧
    (get_vm_info apiDown "vm1").1 = "Error retrieving VM information: unreachable" ∧
    (start_sandbox apiDown "n1").1 = "Error starting sandbox: unreachable" ∧
    (restore_snapshot apiDown "vm1" "s1").1 = "Error restoring snapshot: unreachable" ∧
    (snapshot apiDown "vm1" "s1").1 = "Error creating snapshot: unreachable" ∧
    (run_command apiDown "vm1" "ls").1 = "Error running command: unreachable" ∧
    (upload_file apiDown "vm1" "/p" "c").1 = "Error uploading file: unreachable" ∧
    (download_file apiDown "vm1" "/p").1 = "Error downloading file: unreachable" ∧
    (destroy_vm apiDown "vm1").1 = "Error destroying VM: unreachable" ∧
    (destroy_all_vms apiDown).1 = "Error destroying VMs: unreachable" ∧
    (update_vm_state apiDown "vm1" "paused").1 = "Error updating VM state: unreachable" := by
  have h := all_ops_catch_exceptions apiDown "n1" "vm1" "s1" "ls" "/p" "c" "paused"
    "unreachable"
  exact ⟨h.1 rfl, h.2.1 rfl, h.2.2.1 rfl, h.2.2.2.1 rfl, h.2.2.2.2.1 rfl,
    h.2.2.2.2.2.1 rfl, h.2.2.2.2.2.2.1 rfl, h.2.2.2.2.2.2.2.1 rfl,
    h.2.2.2.2.2.2.2.2.1 rfl, h.2.2.2.2.2.2.2.2.2.1 rfl,
    h.2.2.2.2.2.2.2.2.2.2 rfl⟩

/-- Claim C2: when the call into the external sandbox service fails with
exception message `e`, each operation returns exactly its fixed error
prefix followed by that message. -/
theorem ops_error_prefix (mgr : Api)
    (name vm snapshot_id cmd path content status e : String) :
    (mgr.listAll = Except.error e →
      (get_vms mgr).1 = "Error listing VMs: " ++ e) ∧
    (mgr.info vm = Except.error e →
      (get_vm_info mgr vm).1 = "Error retrieving VM information: " ++ e) ∧
    (mgr.startSandbox name = Except.error e →
      (start_sandbox mgr name).1 = "Error starting sandbox: " ++ e) ∧
    (mgr.restore vm snapshot_id = Except.error e →
      (restore_snapshot mgr vm snapshot_id).1 = "Error restoring snapshot: " ++ e) ∧
    (mgr.snapshot vm snapshot_id = Except.error e →
      (snapshot mgr vm snapshot_id).1 = "Error creating snapshot: " ++ e) ∧
    (mgr.runCmd vm cmd = Except.error e →
      (run_command mgr vm cmd).1 = "Error running command: " ++ e) ∧
    (mgr.uploadFiles vm [(path, content)] = Except.error e →
      (upload_file mgr vm path content).1 = "Error uploading file: " ++ e) ∧
    (mgr.downloadFiles vm [path] = Except.error e →
      (download_file mgr vm path).1 = "Error downloading file: " ++ e) ∧
    (mgr.destroy vm = Except.error e →
      (destroy_vm mgr vm).1 = "Error destroying VM: " ++ e) ∧
    (mgr.destroyAll = Except.error e →
      (destroy_all_vms mgr).1 = "Error destroying VMs: " ++ e) ∧
    (mgr.updateState vm status = Except.error e →
      (update_vm_state mgr vm status).1 = "Error updating VM state: " ++ e) := by
  refine ⟨fun h => handle_fst_error _ _ _ (by simp [get_vms_body, h]),
    fun h => handle_fst_error _ _ _ (by simp [get_vm_info_body, h]),
    fun h => handle_fst_error _ _ _ (by simp [start_sandbox_body, h]),
    fun h => handle_fst_error _ _ _ (by simp [restore_snapshot_body, h]),
    fun h => handle_fst_error _ _ _ (by simp [snapshot_body, h]),
    fun h => handle_fst_error _ _ _ (by simp [run_command_body, h]),
    fun h => handle_fst_error _ _ _ (by simp [upload_file_body, h]),
    fun h => handle_fst_error _ _ _ (by simp [download_file_body, h]),
    fun h => handle_fst_error _ _ _ (by simp [destroy_vm_body, h]),
    fun h => handle_fst_error _ _ _ (by simp [destroy_all_vms_body, h]),
    fun h => handle_fst_error _ _ _ (by simp [update_vm_state_body, h])⟩

/-- Witness for C2: a simulated outage (`apiDown`, every call raising
`unreachable`) yields each operation's prefixed error string. -/
theorem ops_error_prefix_witness :
    (get_vms apiDown).1 = "Error listing VMs: " ++ "unreachable" ∧
    (get_vm_info apiDown "vm2").1 = "Error retrieving VM information: " ++ "unreachable" ∧
    (start_sandbox apiDown "n2").1 = "Error starting sandbox: " ++ "unreachable" ∧
    (restore_snapshot apiDown "vm2" "s2").1 = "Error restoring snapshot: " ++ "unreachable" ∧
    (snapshot apiDown "vm2" "s2").1 = "Error creating snapshot: " ++ "unreachable" ∧
    (run_command apiDown "vm2" "pwd").1 = "Error running command: " ++ "unreachable" ∧
    (upload_file apiDown "vm2" "/q" "d").1 = "Error uploading file: " ++ "unreachable" ∧
    (download_file apiDown "vm2" "/q").1 = "Error downloading file: " ++ "unreachable" ∧
    (destroy_vm apiDown "vm2").1 = "Error destroying VM: " ++ "unreachable" ∧
    (destroy_all_vms apiDown).1 = "Error destroying VMs: " ++ "unreachable" ∧
    (update_vm_state apiDown "vm2" "stopped").1 = "Error updating VM state: " ++ "unreachable" := by
  have h := ops_error_prefix apiDown "n2" "vm2" "s2" "pwd" "/q" "d" "stopped"
    "unreachable"
  exact ⟨h.1 rfl, h.2.1 rfl, h.2.2.1 rfl, h.2.2.2.1 rfl, h.2.2.2.2.1 rfl,
    h.2.2.2.2.2.1 rfl, h.2.2.2.2.2.2.1 rfl, h.2.2.2.2.2.2.2.1 rfl,
    h.2.2.2.2.2.2.2.2.1 rfl, h.2.2.2.2.2.2.2.2.2.1 rfl,
    h.2.2.2.2.2.2.2.2.2.2 rfl⟩

/-- `get_vm_info` makes exactly one external call, addressed by its name
argument, whatever the outcome. -/
theorem get_vm_info_trace (mgr : Api) (vm : String) :
    (get_vm_info mgr vm).2.2 = [ExtCall.info vm] := by
  cases h : mgr.info vm <;> simp [get_vm_info, get_vm_info_body, h, handle]

/-- `snapshot` makes exactly one external call, forwarding its name and id
arguments verbatim, whatever the outcome. -/
theorem snapshot_trace (mgr : Api) (vm snapshot_id : String) :
    (snapshot mgr vm snapshot_id).2.2 = [ExtCall.snapshot vm snapshot_id] := by
  cases h : mgr.snapshot vm snapshot_id <;>
    simp [snapshot, snapshot_body, h, handle]

/-- `run_command` makes exactly one external call, whatever the outcome. -/
theorem run_command_trace (mgr : Api) (vm cmd : String) :
    (run_command mgr vm cmd).2.2 = [ExtCall.runCmd vm cmd] := by
  cases h : mgr.runCmd vm cmd with
  | error e => simp [run_command, run_command_body, h, handle]
  | ok d =>
    by_cases hc : dictGetD d "error" "" ≠ "" <;>
      simp [run_command, run_command_body, h, hc, handle]

/-- `upload_file` makes exactly one external call, forwarding the singleton
record built from its arguments, whatever the outcome. -/
theorem upload_file_trace (mgr : Api) (vm path content : String) :
    (upload_file mgr vm path content).2.2 =
      [ExtCall.uploadFiles vm [(path, content)]] := by
  cases h : mgr.uploadFiles vm [(path, content)] <;>
    simp [upload_file, upload_file_body, h, handle]

/-- `download_file` makes exactly one external call, whatever the outcome. -/
theorem download_file_trace (mgr : Api) (vm path : String) :
    (download_file mgr vm path).2.2 = [ExtCall.downloadFiles vm [path]] := by
  cases h : mgr.downloadFiles vm [path] with
  | error e => simp [download_file, download_file_body, h, handle]
  | ok result =>
    cases result with
    | nil => simp [download_file, download_file_body, h, handle]
    | cons fd rest =>
      cases he : dictGet? fd "error" with
      | none => simp [download_file, download_file_body, h, he, handle]
      | some err =>
        by_cases hne : err ≠ "" <;>
          simp [download_file, download_file_body, h, he, hne, handle]

/-- `destroy_vm` makes exactly one external call, whatever the outcome. -/
theorem destroy_vm_trace (mgr : Api) (vm : String) :
    (destroy_vm mgr vm).2.2 = [ExtCall.destroy vm] := by
  cases h : mgr.destroy vm <;> simp [destroy_vm, destroy_vm_body, h, handle]

/-- `update_vm_state` makes exactly one external call, forwarding its
arguments verbatim, whatever the outcome. -/
theorem update_vm_state_trace (mgr : Api) (vm status : String) :
    (update_vm_state mgr vm status).2.2 = [ExtCall.updateState vm status] := by
  cases h : mgr.updateState vm status <;>
    simp [update_vm_state, update_vm_state_body, h, handle]

/-- Claim C8: every per-VM operation (get_vm_info, snapshot, run_command,
upload_file, download_file, destroy_vm, update_vm_state) addresses the
external service with a handle built freshly from its name argument — its
sole external call names exactly the supplied VM — and no operation
modifies the adapter's only cross-call state, the sandbox-manager
reference, which is identical before and after every operation.  No per-VM
handle survives a call: each operation returns only its result string, the
manager, and the call trace. -/
theorem per_vm_ops_frame (mgr : Api) (vm snapshot_id cmd path content status : String) :
    ((get_vm_info mgr vm).2.1 = mgr ∧
      (get_vm_info mgr vm).2.2 = [ExtCall.info vm]) ∧
    ((snapshot mgr vm snapshot_id).2.1 = mgr ∧
      (snapshot mgr vm snapshot_id).2.2 = [ExtCall.snapshot vm snapshot_id]) ∧
    ((run_command mgr vm cmd).2.1 = mgr ∧
      (run_command mgr vm cmd).2.2 = [ExtCall.runCmd vm cmd]) ∧
    ((upload_file mgr vm path content).2.1 = mgr ∧
      (upload_file mgr vm path content).2.2 = [ExtCall.uploadFiles vm [(path, content)]]) ∧
    ((download_file mgr vm path).2.1 = mgr ∧
      (download_file mgr vm path).2.2 = [ExtCall.downloadFiles vm [path]]) ∧
    ((destroy_vm mgr vm).2.1 = mgr ∧
      (destroy_vm mgr vm).2.2 = [ExtCall.destroy vm]) ∧
    ((update_vm_state mgr vm status).2.1 = mgr ∧
      (update_vm_state mgr vm status).2.2 = [ExtCall.updateState vm status]) :=
  ⟨⟨rfl, get_vm_info_trace mgr vm⟩,
    ⟨rfl, snapshot_trace mgr vm snapshot_id⟩,
    ⟨rfl, run_command_trace mgr vm cmd⟩,
    ⟨rfl, upload_file_trace mgr vm path content⟩,
    ⟨rfl, download_file_trace mgr vm path⟩,
    ⟨rfl, destroy_vm_trace mgr vm⟩,
    ⟨rfl, update_vm_state_trace mgr vm status⟩⟩

/-- Claim C4: when the service call succeeds, `snapshot` returns a success
string both for an empty and for a non-empty id; a non-empty id accepted
verbatim by the service is echoed exactly; and any id argument — in
particular the empty one — is forwarded unchanged to the service, which
alone generates ids: the adapter never generates one itself. -/
theorem snapshot_id_delegation (mgr : Api) (vm : String) :
    (∀ rid, mgr.snapshot vm "" = Except.ok rid →
      (snapshot mgr vm "").1 = "Created snapshot with ID: " ++ rid) ∧
    (mgr.snapshot vm "abc" = Except.ok "abc" →
      (snapshot mgr vm "abc").1 = "Created snapshot with ID: " ++ "abc") ∧
    (∀ sid, (snapshot mgr vm sid).2.2 = [ExtCall.snapshot vm sid]) :=
  ⟨fun rid h => handle_fst_ok _ _ _ (by simp [snapshot_body, h]),
    fun h => handle_fst_ok _ _ _ (by simp [snapshot_body, h]),
    fun sid => snapshot_trace mgr vm sid⟩

/-- Witness for C4: in the healthy environment, an empty id yields the
service-generated id and the id `abc` is echoed verbatim; both ids are
forwarded unchanged. -/
theorem snapshot_id_delegation_witness :
    (snapshot apiUp "vm-a" "").1 = "Created snapshot with ID: " ++ "gen-1" ∧
    (snapshot apiUp "vm-a" "abc").1 = "Created snapshot with ID: " ++ "abc" ∧
    (snapshot apiUp "vm-a" "").2.2 = [ExtCall.snapshot "vm-a" ""] ∧
    (snapshot apiUp "vm-a" "abc").2.2 = [ExtCall.snapshot "vm-a" "abc"] := by
  have h := snapshot_id_delegation apiUp "vm-a"
  exact ⟨h.1 "gen-1" rfl, h.2.1 rfl, h.2.2 "", h.2.2 "abc"⟩

/-- Claim C5: when the service call succeeds, `run_command` returns combined
stdout/stderr text: the result always contains the record's `output` field,
and it carries the `Error:` section with the `error` field exactly when that
field is non-empty. -/
theorem run_command_combined_output (mgr : Api) (vm cmd : String)
    (d : List (String × String)) (h : mgr.runCmd vm cmd = Except.ok d) :
    (∃ pre post, (run_command mgr vm cmd).1 = pre ++ dictGetD d "output" "" ++ post) ∧
    (dictGetD d "error" "" ≠ "" →
      (run_command mgr vm cmd).1 =
        "Command output:\n" ++ dictGetD d "output" "" ++ "\n\nError:\n" ++
          dictGetD d "error" "") ∧
    (dictGetD d "error" "" = "" →
      (run_command mgr vm cmd).1 = "Command output:\n" ++ dictGetD d "output" "") := by
  by_cases herr : dictGetD d "error" "" = ""
  · have hr : (run_command mgr vm cmd).1 =
        "Command output:\n" ++ dictGetD d "output" "" :=
      handle_fst_ok _ _ _ (by simp [run_command_body, h, herr])
    refine ⟨⟨"Command output:\n", "", by rw [hr]; simp⟩,
      fun hne => absurd herr hne, fun _ => hr⟩
  · have hr : (run_command mgr vm cmd).1 =
        "Command output:\n" ++ dictGetD d "output" "" ++ "\n\nError:\n" ++
          dictGetD d "error" "" :=
      handle_fst_ok _ _ _ (by simp [run_command_body, h, herr])
    refine ⟨⟨"Command output:\n", "\n\nError:\n" ++ dictGetD d "error" "",
      by rw [hr]; simp [String.append_assoc]⟩, fun _ => hr, fun he => absurd he herr⟩

/-- Witness for C5: a record with output `hello` and empty error yields the
output-only form; a record with error `boom` yields the combined form. -/
theorem run_command_combined_output_witness :
    (run_command apiUp "vm-a" "ls").1 = "Command output:\n" ++ "hello" ∧
    (run_command { apiUp with
        runCmd := fun _ _ => Except.ok [("output", "hello"), ("error", "boom")] }
      "vm-a" "ls").1 =
      "Command output:\n" ++ "hello" ++ "\n\nError:\n" ++ "boom" := by
  have h1 := run_command_combined_output apiUp "vm-a" "ls"
    [("output", "hello"), ("error", "")] rfl
  have h2 := run_command_combined_output
    { apiUp with runCmd := fun _ _ => Except.ok [("output", "hello"), ("error", "boom")] }
    "vm-a" "ls" [("output", "hello"), ("error", "boom")] rfl
  exact ⟨h1.2.2 rfl, h2.2.1 (by decide)⟩

/-- Claim C6: `update_vm_state` performs no local validation of the status
argument: every status string, valid or not, is forwarded as-is to the
external service, and a rejection surfaces only as the blanket handler's
error string, never as a locally generated validation error or a raised
fault; an accepted status yields the success string. -/
theorem update_vm_state_delegates (mgr : Api) (vm status : String) :
    ((update_vm_state mgr vm status).2.2 = [ExtCall.updateState vm status]) ∧
    (∀ e, mgr.updateState vm status = Except.error e →
      (update_vm_state mgr vm status).1 = "Error updating VM state: " ++ e) ∧
    (∀ u, mgr.updateState vm status = Except.ok u →
      (update_vm_state mgr vm status).1 =
        "Successfully updated VM " ++ vm ++ " state to " ++ status) :=
  ⟨update_vm_state_trace mgr vm status,
    fun e h => handle_fst_error _ _ _ (by simp [update_vm_state_body, h]),
    fun u h => handle_fst_ok _ _ _ (by simp [update_vm_state_body, h])⟩

/-- Witness for C6: the out-of-range status `running` is forwarded verbatim
to a service that rejects it, and the rejection surfaces as the handler's
error string; the valid status `paused` yields the success string. -/
theorem update_vm_state_delegates_witness :
    (update_vm_state apiPicky "vm1" "running").2.2 =
      [ExtCall.updateState "vm1" "running"] ∧
    (update_vm_state apiPicky "vm1" "running").1 =
      "Error updating VM state: " ++ "invalid status running" ∧
    (update_vm_state apiPicky "vm1" "paused").1 =
      "Successfully updated VM " ++ "vm1" ++ " state to " ++ "paused" := by
  have h1 := update_vm_state_delegates apiPicky "vm1" "running"
  have h2 := update_vm_state_delegates apiPicky "vm1" "paused"
  exact ⟨h1.1, h1.2.1 "invalid status running" rfl, h2.2.2 () rfl⟩

/-- When `info` succeeds on every listed VM, the comprehension collects the
info records of exactly those VMs, in order, querying each one. -/
theorem infoAll_ok (mgr : Api) (f : String → VMInfo) :
    ∀ vms : List String, (∀ vm, vm ∈ vms → mgr.info vm = Except.ok (f vm)) →
      infoAll mgr vms = (Except.ok (vms.map f), vms.map ExtCall.info) := by
  intro vms
  induction vms with
  | nil => intro _; rfl
  | cons vm rest ih =>
    intro h
    have hvm : mgr.info vm = Except.ok (f vm) := h vm (List.mem_cons_self vm rest)
    have hrest := ih (fun v hv => h v (List.mem_cons_of_mem _ hv))
    simp [infoAll, hvm, hrest]

/-- Claim C7: when the manager's list-all call succeeds and each listed VM's
info call succeeds, `get_vms` returns the JSON serialization of the list of
exactly those VMs' info records, in the same order, and of nothing else; on
failure of the list-all call it returns the error string. -/
theorem get_vms_serializes (mgr : Api) (vms : List String) (f : String → VMInfo)
    (e : String) :
    (mgr.listAll = Except.ok vms →
      (∀ vm, vm ∈ vms → mgr.info vm = Except.ok (f vm)) →
      (get_vms mgr).1 = dumpsInfoList (vms.map f)) ∧
    (mgr.listAll = Except.error e → (get_vms mgr).1 = "Error listing VMs: " ++ e) := by
  constructor
  · intro h1 h2
    exact handle_fst_ok _ _ _ (by simp [get_vms_body, h1, infoAll_ok mgr f vms h2])
  · intro h1
    exact handle_fst_error _ _ _ (by simp [get_vms_body, h1])

/-- Witness for C7: the healthy environment lists `vm-a` and `vm-b`, and
`get_vms` serializes exactly their two info records in order; the
unreachable environment yields the error string. -/
theorem get_vms_serializes_witness :
    (get_vms apiUp).1 =
      dumpsInfoList [VMInfo.mk ("info-" ++ "vm-a"), VMInfo.mk ("info-" ++ "vm-b")] ∧
    (get_vms apiDown).1 = "Error listing VMs: " ++ "unreachable" := by
  have h1 := get_vms_serializes apiUp ["vm-a", "vm-b"]
    (fun vm => VMInfo.mk ("info-" ++ vm)) "unreachable"
  have h2 := get_vms_serializes apiDown ["vm-a", "vm-b"]
    (fun vm => VMInfo.mk ("info-" ++ vm)) "unreachable"
  exact ⟨h1.1 rfl (fun vm _ => rfl), h2.2 rfl⟩

/-- When the first downloaded record carries no (non-empty) error, the
result is the content header followed by the record's content. -/
theorem download_file_content_case (mgr : Api) (vm path : String)
    (fd : List (String × String)) (rest : List (List (String × String)))
    (h : mgr.downloadFiles vm [path] = Except.ok (fd :: rest))
    (herr : dictGetD fd "error" "" = "") :
    (download_file mgr vm path).1 = "File content:\n" ++ dictGetD fd "content" "" := by
  refine handle_fst_ok _ _ _ ?_
  cases he : dictGet? fd "error" with
  | none => simp [download_file_body, h, he]
  | some err =>
    have hz : err = "" := by
      rw [dictGetD, he] at herr
      simpa using herr
    subst hz
    simp [download_file_body, h, he]

/-- When the first downloaded record carries a non-empty error, the result
is the download error message with that error. -/
theorem download_file_error_case (mgr : Api) (vm path err : String)
    (fd : List (String × String)) (rest : List (List (String × String)))
    (h : mgr.downloadFiles vm [path] = Except.ok (fd :: rest))
    (he : dictGet? fd "error" = some err) (hne : err ≠ "") :
    (download_file mgr vm path).1 = "Error downloading file: " ++ err :=
  handle_fst_ok _ _ _ (by simp [download_file_body, h, he, hne])

/-- Counterexample to C3 as stated: on an existing path the operation does
not return the file's literal stored content — in the healthy environment
the stored content of the path `/f` is the string `stored-` followed by
`/f`, but the operation returns that content behind the fixed
`File content:` header, so the returned string differs from the content. -/
theorem download_file_literal_content_counterexample :
    apiUp.downloadFiles "vm-a" ["/f"] =
      Except.ok [[("path", "/f"), ("content", "stored-" ++ "/f")]] ∧
    dictGet? [("path", "/f"), ("content", "stored-" ++ "/f")] "content" =
      some ("stored-" ++ "/f") ∧
    (download_file apiUp "vm-a" "/f").1 ≠ "stored-" ++ "/f" := by
  refine ⟨rfl, rfl, ?_⟩
  decide

/-- Claim C3 (amended): `download_file` on a path for which the service
returns no file records returns a `No file found` message naming the path
rather than raising; on an existing path — a non-empty result whose first
record has no error — it returns the file's literal stored content prefixed
by the fixed header line `File content:`. -/
theorem download_file_found_and_missing (mgr : Api) (vm path c : String)
    (fd : List (String × String)) (rest : List (List (String × String))) :
    (mgr.downloadFiles vm [path] = Except.ok [] →
      (download_file mgr vm path).1 = "No file found at path: " ++ path) ∧
    (mgr.downloadFiles vm [path] = Except.ok (fd :: rest) →
      dictGetD fd "error" "" = "" → dictGet? fd "content" = some c →
      (download_file mgr vm path).1 = "File content:\n" ++ c) := by
  constructor
  · intro h
    exact handle_fst_ok _ _ _ (by simp [download_file_body, h])
  · intro h herr hc
    rw [download_file_content_case mgr vm path fd rest h herr]
    simp [dictGetD, hc]

/-- Witness for C3 (amended): an empty download result yields the
`No file found` message with the path, and an existing path yields its
stored content behind the header. -/
theorem download_file_found_and_missing_witness :
    (download_file apiEmptyDl "vm-a" "/missing").1 =
      "No file found at path: " ++ "/missing" ∧
    (download_file apiUp "vm-a" "/f").1 = "File content:\n" ++ ("stored-" ++ "/f") := by
  have h1 := download_file_found_and_missing apiEmptyDl "vm-a" "/missing" "" [] []
  have h2 := download_file_found_and_missing apiUp "vm-a" "/f" ("stored-" ++ "/f")
    [("path", "/f"), ("content", "stored-" ++ "/f")] []
  exact ⟨h1.1 rfl, h2.2 rfl rfl rfl⟩

/-- Claim C9: `download_file` inspects only the first record returned by the
service: a first record with a non-empty `error` field yields
`Error downloading file:` with that error instead of any content; a first
record lacking a `content` key is treated as empty content; and the result
is the same whatever records follow the first (they are never examined). -/
theorem download_file_first_record (mgr mgr2 : Api) (vm path err : String)
    (fd : List (String × String))
    (rest rest2 : List (List (String × String))) :
    (mgr.downloadFiles vm [path] = Except.ok (fd :: rest) →
      dictGet? fd "error" = some err → err ≠ "" →
      (download_file mgr vm path).1 = "Error downloading file: " ++ err) ∧
    (mgr.downloadFiles vm [path] = Except.ok (fd :: rest) →
      dictGetD fd "error" "" = "" → dictGet? fd "content" = none →
      (download_file mgr vm path).1 = "File content:\n") ∧
    (mgr.downloadFiles vm [path] = Except.ok (fd :: rest) →
      mgr2.downloadFiles vm [path] = Except.ok (fd :: rest2) →
      (download_file mgr vm path).1 = (download_file mgr2 vm path).1) := by
  refine ⟨fun h he hne => download_file_error_case mgr vm path err fd rest h he hne,
    fun h herr hc => ?_, fun h h2 => ?_⟩
  · rw [download_file_content_case mgr vm path fd rest h herr]
    simp [dictGetD, hc]
  · cases he : dictGet? fd "error" with
    | none =>
      have herr : dictGetD fd "error" "" = "" := by simp [dictGetD, he]
      rw [download_file_content_case mgr vm path fd rest h herr,
        download_file_content_case mgr2 vm path fd rest2 h2 herr]
    | some err2 =>
      by_cases hne : err2 = ""
      · subst hne
        have herr : dictGetD fd "error" "" = "" := by simp [dictGetD, he]
        rw [download_file_content_case mgr vm path fd rest h herr,
          download_file_content_case mgr2 vm path fd rest2 h2 herr]
      · rw [download_file_error_case mgr vm path err2 fd rest h he hne,
          download_file_error_case mgr2 vm path err2 fd rest2 h2 he hne]

/-- Witness for C9: a first record with error `permission denied` yields the
error message; a first record without a `content` key yields the bare
header; and changing the records after the first leaves the result
unchanged. -/
theorem download_file_first_record_witness :
    (download_file apiErrDl "vm-a" "/f").1 =
      "Error downloading file: " ++ "permission denied" ∧
    (download_file apiNoContent "vm-a" "/f").1 = "File content:\n" ∧
    (download_file apiErrDl "vm-a" "/f").1 = (download_file apiErrDl2 "vm-a" "/f").1 := by
  have h := download_file_first_record apiErrDl apiErrDl2 "vm-a" "/f"
    "permission denied" [("error", "permission denied")] [[("content", "ignored")]] []
  have h2 := download_file_first_record apiNoContent apiNoContent "vm-a" "/f" ""
    [("path", "/f")] [] []
  exact ⟨h.1 rfl rfl (by decide), h2.2.1 rfl rfl rfl, h.2.2 rfl rfl⟩

/-- Claim C10: `upload_file` forwards exactly one file record — a singleton
list pairing the given path with the given content unchanged — to the
service's upload call, and on success returns a confirmation naming the
destination path but not the VM: the success string is the same for any two
VMs. -/
theorem upload_file_single_record (mgr : Api) (vm vm2 path content : String) :
    ((upload_file mgr vm path content).2.2 =
      [ExtCall.uploadFiles vm [(path, content)]]) ∧
    (∀ u, mgr.uploadFiles vm [(path, content)] = Except.ok u →
      (upload_file mgr vm path content).1 = "Successfully uploaded file to " ++ path) ∧
    (∀ u u2, mgr.uploadFiles vm [(path, content)] = Except.ok u →
      mgr.uploadFiles vm2 [(path, content)] = Except.ok u2 →
      (upload_file mgr vm path content).1 = (upload_file mgr vm2 path content).1) := by
  refine ⟨upload_file_trace mgr vm path content,
    fun u h => handle_fst_ok _ _ _ (by simp [upload_file_body, h]),
    fun u u2 h h2 => ?_⟩
  have e1 : (upload_file mgr vm path content).1 =
      "Successfully uploaded file to " ++ path :=
    handle_fst_ok _ _ _ (by simp [upload_file_body, h])
  have e2 : (upload_file mgr vm2 path content).1 =
      "Successfully uploaded file to " ++ path :=
    handle_fst_ok _ _ _ (by simp [upload_file_body, h2])
  rw [e1, e2]

/-- Witness for C10: uploading `data` to `/p` forwards the singleton record
`(/p, data)` and confirms the path; the confirmation is identical for VMs
`vm-a` and `vm-b`. -/
theorem upload_file_single_record_witness :
    (upload_file apiUp "vm-a" "/p" "data").2.2 =
      [ExtCall.uploadFiles "vm-a" [("/p", "data")]] ∧
    (upload_file apiUp "vm-a" "/p" "data").1 =
      "Successfully uploaded file to " ++ "/p" ∧
    (upload_file apiUp "vm-a" "/p" "data").1 =
      (upload_file apiUp "vm-b" "/p" "data").1 := by
  have h := upload_file_single_record apiUp "vm-a" "vm-b" "/p" "data"
  exact ⟨h.1, h.2.1 () rfl, h.2.2 () () rfl rfl⟩

end Arrakis
